import Mathlib

/-!
Shallow embedding of `sfa_duckdb_gemini_v2.py`, a bounded-iteration DuckDB
agent loop driven by a tool-calling Gemini backend.

External effects are modelled explicitly:

* the database engine boundary is a function `Db` from the full shell
  command string (as built by each tool via an f-string) to either a
  captured process result (exit code, stdout, stderr) — `subprocess.run`
  with `capture_output=True` and no `check=True` never raises on a nonzero
  exit — or the text of a raised exception (e.g. the spawn itself failing);
* the model backend boundary is a function `Backend` from the round index
  and the message history to either a response (function calls plus free
  text) or the text of a raised exception.

Console logging and rich rendering are not modelled: they never affect
control flow or recorded state.  Interpreter-generated exception strings
(`TypeError` on keyword-binding failure, `NameError` on reading the unbound
`result` local) are rendered by explicit helper functions whose wording
abstracts the Python runtime's.  The literal `AGENT_PROMPT` constant is not
reproduced; the template is threaded as a parameter, and the interpolation
`AGENT_PROMPT.replace("\x7b\x7buser_request\x7d\x7d", args.prompt)` is kept
as `String.replace`.
-/

set_option linter.unusedVariables false

/-- Result of one completed external process run, as captured by
`subprocess.run(..., capture_output=True, text=True)`. -/
structure ProcResult where
  exitCode : Int
  stdout : String
  stderr : String
  deriving DecidableEq

/-- The database engine boundary: one shell command string in, either a
captured process result or the text of a raised exception out. -/
abbrev Db := String → Except String ProcResult

/-- A single-quote character as a string (written via its code point). -/
def squote : String := String.mk [Char.ofNat 39]

/-- The shell command each tool builds: `duckdb DB_PATH -c "stmt"`. -/
def duckdbCmd (dbPath stmt : String) : String :=
  "duckdb " ++ dbPath ++ " -c \"" ++ stmt ++ "\""

/-- The catalog query `list_tables` sends (line 50 of the source). -/
def sqliteMasterQuery : String :=
  "SELECT name FROM sqlite_master WHERE type=" ++ squote ++ "table" ++ squote ++ ";"

/-- `list_tables`: runs the catalog query and returns
`result.stdout.strip().split("\n")`; if the process spawn raises, the
handler returns the empty list. -/
def list_tables (env : Db) (dbPath reasoning : String) : List String :=
  match env (duckdbCmd dbPath sqliteMasterQuery) with
  | .ok r => r.stdout.trim.splitOn "\n"
  | .error _ => []

/-- `describe_table`: runs `DESCRIBE table_name;` and returns
`result.stdout`; if the process spawn raises, the handler returns `""`.
Note stderr and the exit code are never inspected. -/
def describe_table (env : Db) (dbPath reasoning table_name : String) : String :=
  match env (duckdbCmd dbPath ("DESCRIBE " ++ table_name ++ ";")) with
  | .ok r => r.stdout
  | .error _ => ""

/-- `sample_table`: runs `SELECT * FROM table_name LIMIT row_count;` and
returns `result.stdout`; if the process spawn raises, the handler returns
`""`.  `row_count` is taken here already stringified, as f-string
interpolation renders it. -/
def sample_table (env : Db) (dbPath reasoning table_name row_count : String) : String :=
  match env (duckdbCmd dbPath ("SELECT * FROM " ++ table_name ++ " LIMIT " ++ row_count ++ ";")) with
  | .ok r => r.stdout
  | .error _ => ""

/-- `run_test_sql_query`: runs the query and returns `result.stdout`; if
the process spawn raises, the handler returns `str(e)`. -/
def run_test_sql_query (env : Db) (dbPath reasoning sql_query : String) : String :=
  match env (duckdbCmd dbPath sql_query) with
  | .ok r => r.stdout
  | .error e => e

/-- `run_final_sql_query`: runs the query and returns `result.stdout`; if
the process spawn raises, the handler returns `str(e)`.  Like the other
tools it never raises and never inspects the exit code or stderr. -/
def run_final_sql_query (env : Db) (dbPath reasoning sql_query : String) : String :=
  match env (duckdbCmd dbPath sql_query) with
  | .ok r => r.stdout
  | .error e => e

/-- An argument value as delivered in the backend's function-call
arguments mapping. -/
inductive Value where
  | str (s : String)
  | int (n : Int)
  deriving DecidableEq

/-- Python `str()` of an argument value, as f-string interpolation
performs it. -/
def Value.toStr : Value → String
  | .str s => s
  | .int n => toString n

/-- Python `repr()` of a string (quotes it; internal escaping is not
modelled, no claim depends on it). -/
def pyRepr (s : String) : String := squote ++ s ++ squote

/-- Python `repr()` of an argument value. -/
def pyReprValue : Value → String
  | .str s => pyRepr s
  | .int n => toString n

/-- Python `str()` of a list of strings, as `str(result)` renders the
`list_tables` return value. -/
def pyStrList (xs : List String) : String :=
  "[" ++ String.intercalate ", " (xs.map pyRepr) ++ "]"

/-- Python `str()` of the keyword-argument dict, as interpolated into the
error message `f"Error executing ... with args \x7bfunc_args\x7d ..."`. -/
def pyStrArgs (args : List (String × Value)) : String :=
  "\x7b" ++ String.intercalate ", " (args.map (fun p => pyRepr p.1 ++ ": " ++ pyReprValue p.2)) ++ "\x7d"

/-- One function call requested by the model: name plus keyword
arguments. -/
structure FuncCall where
  name : String
  args : List (String × Value)
  deriving DecidableEq

/-- Text of the `TypeError` raised when `f(**func_args)` finds required
parameters missing (the wording abstracts the interpreter's). -/
def missingArgText (fn : String) (params : List String) : String :=
  fn ++ "() missing required arguments: " ++ String.intercalate ", " params

/-- Text of the `TypeError` raised when `f(**func_args)` receives an
unexpected keyword argument (the wording abstracts the interpreter's). -/
def unexpectedKwText (fn : String) : String :=
  fn ++ "() got an unexpected keyword argument"

/-- Text of the `NameError` raised when the fallthrough
`messages.append(... str(result) ...)` reads the never-assigned local
`result` (the wording abstracts the interpreter's). -/
def nameErrorText : String :=
  "name " ++ pyRepr "result" ++ " is not defined"

/-- The required parameters still missing from the argument mapping. -/
def missingOf (required : List String) (args : List (String × Value)) : List String :=
  required.filter (fun p => (args.lookup p).isNone)

/-- Keyword binding for `list_tables(reasoning)`. -/
def bindReasoning (fn : String) (args : List (String × Value)) : Except String String :=
  match args.lookup "reasoning" with
  | some r =>
      if args.all (fun p => p.1 == "reasoning") then .ok r.toStr
      else .error (unexpectedKwText fn)
  | none => .error (missingArgText fn (missingOf ["reasoning"] args))

/-- Keyword binding for `describe_table(reasoning, table_name)`. -/
def bindTableArgs (fn : String) (args : List (String × Value)) : Except String (String × String) :=
  match args.lookup "reasoning", args.lookup "table_name" with
  | some r, some t =>
      if args.all (fun p => p.1 == "reasoning" || p.1 == "table_name") then .ok (r.toStr, t.toStr)
      else .error (unexpectedKwText fn)
  | _, _ => .error (missingArgText fn (missingOf ["reasoning", "table_name"] args))

/-- Keyword binding for `sample_table(reasoning, table_name, row_count)`. -/
def bindSampleArgs (fn : String) (args : List (String × Value)) : Except String (String × String × String) :=
  match args.lookup "reasoning", args.lookup "table_name", args.lookup "row_count" with
  | some r, some t, some n =>
      if args.all (fun p => p.1 == "reasoning" || p.1 == "table_name" || p.1 == "row_count") then
        .ok (r.toStr, t.toStr, n.toStr)
      else .error (unexpectedKwText fn)
  | _, _, _ => .error (missingArgText fn (missingOf ["reasoning", "table_name", "row_count"] args))

/-- Keyword binding for `run_test_sql_query(reasoning, sql_query)` and
`run_final_sql_query(reasoning, sql_query)`. -/
def bindQueryArgs (fn : String) (args : List (String × Value)) : Except String (String × String) :=
  match args.lookup "reasoning", args.lookup "sql_query" with
  | some r, some q =>
      if args.all (fun p => p.1 == "reasoning" || p.1 == "sql_query") then .ok (r.toStr, q.toStr)
      else .error (unexpectedKwText fn)
  | _, _ => .error (missingArgText fn (missingOf ["reasoning", "sql_query"] args))

/-- One entry of the `messages` list, mirroring the dicts the source
appends: a role, an optional name (present only on role `"function"`),
and content. -/
structure Turn where
  role : String
  name : Option String
  content : String
  deriving DecidableEq

/-- The initial `\x7b"role": "user", "content": ...\x7d` message. -/
def userTurn (c : String) : Turn := ⟨"user", none, c⟩

/-- A `\x7b"role": "model", "content": ...\x7d` message. -/
def modelTurn (c : String) : Turn := ⟨"model", none, c⟩

/-- A `\x7b"role": "function", "name": ..., "content": ...\x7d` message. -/
def functionTurn (n c : String) : Turn := ⟨"function", some n, c⟩

/-- The mutable state of `main`'s loop: the `messages` list plus the local
variable `result`, which in Python persists across loop iterations and
rounds once first assigned (`none` models never-assigned). -/
structure LoopState where
  messages : List Turn
  lastResult : Option String
  deriving DecidableEq

/-- Outcome of dispatching one function call (or a list of them): either
the loop continues with an updated state, or `return` was executed after a
successful `run_final_sql_query` with the printed output. -/
inductive DispatchResult where
  | next (st : LoopState)
  | finished (out : String) (st : LoopState)
  deriving DecidableEq

/-- The state carried by a dispatch result. -/
def DispatchResult.state : DispatchResult → LoopState
  | .next st => st
  | .finished _ st => st

/-- The error message built on a failed function call (line 392):
`f"Error executing \x7bfunc_name\x7d with args \x7bfunc_args\x7d. Try again: \x7bstr(e)\x7d"`. -/
def errorMsg (fn argsStr excText : String) : String :=
  "Error executing " ++ fn ++ " with args " ++ argsStr ++ ". Try again: " ++ excText

/-- The five tool names the dispatch chain of `main` recognises. -/
def registeredTools : List String :=
  ["list_tables", "describe_table", "sample_table", "run_test_sql_query", "run_final_sql_query"]

/-- Dispatch of one function call, mirroring the if/elif chain of `main`
(lines 366–397).  A successful non-final call appends a role-`"function"`
message holding `str(result)` and updates the `result` local; a successful
`run_final_sql_query` returns from `main` before any append; a binding
failure is caught by the inner `except`, which appends a role-`"model"`
error message and continues.  An unrecognised name falls through to the
append, which reads the stale `result` if one was ever assigned and
otherwise raises a `NameError` that the same `except` turns into an error
message. -/
def processCall (env : Db) (dbPath : String) (st : LoopState) (fc : FuncCall) : DispatchResult :=
  if fc.name == "list_tables" then
    match bindReasoning "list_tables" fc.args with
    | .ok r =>
        let res := pyStrList (list_tables env dbPath r)
        .next ⟨st.messages ++ [functionTurn fc.name res], some res⟩
    | .error e =>
        .next ⟨st.messages ++ [modelTurn (errorMsg fc.name (pyStrArgs fc.args) e)], st.lastResult⟩
  else if fc.name == "describe_table" then
    match bindTableArgs "describe_table" fc.args with
    | .ok (r, t) =>
        let res := describe_table env dbPath r t
        .next ⟨st.messages ++ [functionTurn fc.name res], some res⟩
    | .error e =>
        .next ⟨st.messages ++ [modelTurn (errorMsg fc.name (pyStrArgs fc.args) e)], st.lastResult⟩
  else if fc.name == "sample_table" then
    match bindSampleArgs "sample_table" fc.args with
    | .ok (r, t, n) =>
        let res := sample_table env dbPath r t n
        .next ⟨st.messages ++ [functionTurn fc.name res], some res⟩
    | .error e =>
        .next ⟨st.messages ++ [modelTurn (errorMsg fc.name (pyStrArgs fc.args) e)], st.lastResult⟩
  else if fc.name == "run_test_sql_query" then
    match bindQueryArgs "run_test_sql_query" fc.args with
    | .ok (r, q) =>
        let res := run_test_sql_query env dbPath r q
        .next ⟨st.messages ++ [functionTurn fc.name res], some res⟩
    | .error e =>
        .next ⟨st.messages ++ [modelTurn (errorMsg fc.name (pyStrArgs fc.args) e)], st.lastResult⟩
  else if fc.name == "run_final_sql_query" then
    match bindQueryArgs "run_final_sql_query" fc.args with
    | .ok (r, q) => .finished (run_final_sql_query env dbPath r q) st
    | .error e =>
        .next ⟨st.messages ++ [modelTurn (errorMsg fc.name (pyStrArgs fc.args) e)], st.lastResult⟩
  else
    match st.lastResult with
    | some res => .next ⟨st.messages ++ [functionTurn fc.name res], some res⟩
    | none =>
        .next ⟨st.messages ++ [modelTurn (errorMsg fc.name (pyStrArgs fc.args) nameErrorText)], st.lastResult⟩

/-- Sequential dispatch of all function calls of one round, in the order
received; a `return` from a successful final query stops processing the
rest. -/
def processCalls (env : Db) (dbPath : String) (st : LoopState) : List FuncCall → DispatchResult
  | [] => .next st
  | fc :: rest =>
      match processCall env dbPath st fc with
      | .next st2 => processCalls env dbPath st2 rest
      | .finished out st2 => .finished out st2

/-- A backend response: `response.function_calls` and `response.text`. -/
structure GenResponse where
  function_calls : List FuncCall
  text : String
  deriving DecidableEq

/-- One round's processing of the backend response (lines 357–401): a
nonempty call list is dispatched sequentially; otherwise a role-`"model"`
message with the free-text reply is appended. -/
def processRound (env : Db) (dbPath : String) (st : LoopState) (resp : GenResponse) : DispatchResult :=
  if resp.function_calls.isEmpty then
    .next ⟨st.messages ++ [modelTurn resp.text], st.lastResult⟩
  else
    processCalls env dbPath st resp.function_calls

/-- The model backend boundary: round index and history in, either a
response or the text of a raised exception out. -/
abbrev Backend := Nat → List Turn → Except String GenResponse

/-- Terminal condition of the loop. -/
inductive RunOutcome where
  | terminated (output : String) (st : LoopState)
  | exhausted (st : LoopState)
  | backendError (e : String) (st : LoopState)
  deriving DecidableEq

/-- The state carried by a run outcome. -/
def RunOutcome.state : RunOutcome → LoopState
  | .terminated _ st => st
  | .exhausted st => st
  | .backendError _ st => st

/-- A run's outcome instrumented with the number of loop iterations
performed (backend calls made) and the number of successful
`run_final_sql_query` executions.  A round counts as finished-with-final
exactly when `processRound` returns `finished`, which by construction of
`processCall` happens only on a successful `run_final_sql_query`. -/
structure RunResult where
  outcome : RunOutcome
  rounds : Nat
  finals : Nat
  deriving DecidableEq

/-- The agent loop `for i in range(args.compute)` (lines 332–406), with
`fuel` the rounds remaining and `i` the current index.  A backend
exception is re-raised (`raise e`) and aborts the run; a `finished` round
returns from `main`; otherwise the next round runs; running out of fuel
falls through to the warning. -/
def runFrom (env : Db) (dbPath : String) (backend : Backend) : Nat → Nat → LoopState → RunResult
  | 0, _, st => ⟨.exhausted st, 0, 0⟩
  | fuel + 1, i, st =>
      match backend i st.messages with
      | .error e => ⟨.backendError e st, 1, 0⟩
      | .ok resp =>
          match processRound env dbPath st resp with
          | .finished out st2 => ⟨.terminated out st2, 1, 1⟩
          | .next st2 =>
              let r := runFrom env dbPath backend fuel (i + 1) st2
              ⟨r.outcome, r.rounds + 1, r.finals⟩

/-- `AGENT_PROMPT.replace("\x7b\x7buser_request\x7d\x7d", args.prompt)`. -/
def completedPrompt (agentPrompt userRequest : String) : String :=
  agentPrompt.replace ("\x7b\x7b" ++ "user_request" ++ "\x7d\x7d") userRequest

/-- The initial loop state: history holds the single rendered user turn,
and the `result` local is not yet assigned. -/
def initState (agentPrompt userRequest : String) : LoopState :=
  ⟨[userTurn (completedPrompt agentPrompt userRequest)], none⟩

/-- How `main` ends: credential check failed (`sys.exit(1)` before any
round), final results printed (return, exit 0), exhaustion warning printed
(fall out of the loop, exit 0), or an uncaught re-raised backend exception
(nonzero exit). -/
inductive MainResult where
  | configError
  | finished (output : String) (st : LoopState)
  | exhaustedWarn (st : LoopState)
  | crashed (e : String) (st : LoopState)
  deriving DecidableEq

/-- `main` (lines 286–410): missing or empty `GEMINI_API_KEY` exits with
status 1 before any round; otherwise the loop runs over the initial
history. -/
def mainRun (apiKey : Option String) (env : Db) (dbPath : String) (backend : Backend)
    (compute : Nat) (agentPrompt userRequest : String) : MainResult :=
  match apiKey with
  | none => .configError
  | some k =>
      if k == "" then .configError
      else
        match (runFrom env dbPath backend compute 0 (initState agentPrompt userRequest)).outcome with
        | .terminated out st => .finished out st
        | .exhausted st => .exhaustedWarn st
        | .backendError e st => .crashed e st

/-- The process exit code for each way `main` ends (an uncaught exception
exits Python with status 1). -/
def exitCodeOf : MainResult → Nat
  | .configError => 1
  | .finished _ _ => 0
  | .exhaustedWarn _ => 0
  | .crashed _ _ => 1

/-- Whether the maximum-compute-loops warning (line 408) was printed. -/
def warningPrinted : MainResult → Bool
  | .exhaustedWarn _ => true
  | _ => false

/-- A database environment whose process always succeeds with empty
output. -/
def envOkEmpty : Db := fun _ => .ok ⟨0, "", ""⟩

/-- A database environment whose process always exits with status 1,
empty stdout, and a nonempty error on stderr. -/
def envFailExit : Db := fun _ => .ok ⟨1, "", "Catalog Error: table t1 does not exist"⟩

/-- A database environment whose process spawn always raises. -/
def envRaise : Db := fun _ => .error "FileNotFoundError: duckdb not found"

/-- A backend that always answers with free text and no tool calls. -/
def backendFree : Backend := fun _ _ => .ok ⟨[], "hi"⟩

/-- A well-formed `run_final_sql_query` invocation used as a concrete
input. -/
def fcFinal : FuncCall :=
  ⟨"run_final_sql_query", [("reasoning", Value.str "done"), ("sql_query", Value.str "SELECT 1;")]⟩

/-- A backend that immediately requests the final query. -/
def backendFinal : Backend := fun _ _ => .ok ⟨[fcFinal], ""⟩

/-- Dispatching one call only appends to the message list. -/
theorem processCall_state_extends (env : Db) (dbPath : String) (st : LoopState) (fc : FuncCall) :
    st.messages <+: (processCall env dbPath st fc).state.messages := by
  unfold processCall
  repeat' split
  all_goals simp [DispatchResult.state]

/-- Dispatching a list of calls only appends to the message list. -/
theorem processCalls_state_extends (env : Db) (dbPath : String) :
    ∀ (calls : List FuncCall) (st : LoopState),
      st.messages <+: (processCalls env dbPath st calls).state.messages := by
  intro calls
  induction calls with
  | nil => intro st; simp [processCalls, DispatchResult.state]
  | cons fc rest ih =>
      intro st
      have h1 := processCall_state_extends env dbPath st fc
      unfold processCalls
      cases hpc : processCall env dbPath st fc with
      | next st2 =>
          rw [hpc] at h1
          simp only [DispatchResult.state] at h1
          exact h1.trans (ih st2)
      | finished out st2 =>
          rw [hpc] at h1
          simpa [DispatchResult.state] using h1

/-- Processing one round only appends to the message list. -/
theorem processRound_state_extends (env : Db) (dbPath : String) (st : LoopState) (resp : GenResponse) :
    st.messages <+: (processRound env dbPath st resp).state.messages := by
  unfold processRound
  split
  · simp [DispatchResult.state]
  · exact processCalls_state_extends env dbPath resp.function_calls st

/-- Running the loop only appends to the message list. -/
theorem runFrom_state_extends (env : Db) (dbPath : String) (backend : Backend) :
    ∀ (fuel i : Nat) (st : LoopState),
      st.messages <+: (runFrom env dbPath backend fuel i st).outcome.state.messages := by
  intro fuel
  induction fuel with
  | zero => intro i st; simp [runFrom, RunOutcome.state]
  | succ n ih =>
      intro i st
      unfold runFrom
      cases hb : backend i st.messages with
      | error e => simp [RunOutcome.state]
      | ok resp =>
          have h1 := processRound_state_extends env dbPath st resp
          cases hpr : processRound env dbPath st resp with
          | finished out st2 =>
              rw [hpr] at h1
              simp only [hpr]
              simpa [RunOutcome.state, DispatchResult.state] using h1
          | next st2 =>
              rw [hpr] at h1
              simp only [DispatchResult.state] at h1
              simp only [hpr]
              simpa [RunOutcome.state] using h1.trans (ih (i + 1) st2)

/-- The loop performs at most `fuel` rounds and at most one successful
final query. -/
theorem runFrom_counts (env : Db) (dbPath : String) (backend : Backend) :
    ∀ (fuel i : Nat) (st : LoopState),
      (runFrom env dbPath backend fuel i st).rounds ≤ fuel
    ∧ (runFrom env dbPath backend fuel i st).finals ≤ 1 := by
  intro fuel
  induction fuel with
  | zero => intro i st; simp [runFrom]
  | succ n ih =>
      intro i st
      unfold runFrom
      cases backend i st.messages with
      | error e => simp
      | ok resp =>
          cases hpr : processRound env dbPath st resp with
          | finished out st2 => simp [hpr]
          | next st2 =>
              have h := ih (i + 1) st2
              simp only [hpr]
              constructor
              · simpa using Nat.add_le_add_right h.1 1
              · simpa using h.2

/-- Dispatching a concatenation processes the first list and, if no final
query returned, continues with the second from the reached state. -/
theorem processCalls_append (env : Db) (dbPath : String) :
    ∀ (l1 l2 : List FuncCall) (st : LoopState),
      processCalls env dbPath st (l1 ++ l2)
        = match processCalls env dbPath st l1 with
          | .next st2 => processCalls env dbPath st2 l2
          | .finished out st2 => .finished out st2 := by
  intro l1
  induction l1 with
  | nil => intro l2 st; simp [processCalls]
  | cons fc rest ih =>
      intro l2 st
      simp only [List.cons_append, processCalls]
      cases processCall env dbPath st fc with
      | next st2 => simpa using ih l2 st2
      | finished out st2 => rfl

/-- With a backend that never raises, the loop never ends in the
re-raised backend-error outcome. -/
theorem runFrom_no_backendError (env : Db) (dbPath : String) (backend : Backend)
    (hb : ∀ (i : Nat) (msgs : List Turn), ∃ resp, backend i msgs = .ok resp) :
    ∀ (fuel i : Nat) (st : LoopState) (e : String) (st2 : LoopState),
      (runFrom env dbPath backend fuel i st).outcome ≠ .backendError e st2 := by
  intro fuel
  induction fuel with
  | zero => intro i st e st2 h; simp [runFrom] at h
  | succ n ih =>
      intro i st e st2 h
      obtain ⟨resp, hr⟩ := hb i st.messages
      rw [runFrom] at h
      cases hpr : processRound env dbPath st resp with
      | finished out st3 => simp [hr, hpr] at h
      | next st3 =>
          simp only [hr, hpr] at h
          exact ih (i + 1) st3 e st2 h

/-- The dispatch error message interpolates the failed tool's name. -/
theorem errorMsg_contains_name (fn argsStr excText : String) :
    ∃ a b, errorMsg fn argsStr excText = a ++ fn ++ b :=
  ⟨"Error executing ", " with args " ++ argsStr ++ ". Try again: " ++ excText, by
    simp [errorMsg, String.append_assoc]⟩

/-- The required parameter names of each registered tool (none of the
five Python functions has a default). -/
def requiredParams : String → List String
  | "list_tables" => ["reasoning"]
  | "describe_table" => ["reasoning", "table_name"]
  | "sample_table" => ["reasoning", "table_name", "row_count"]
  | "run_test_sql_query" => ["reasoning", "sql_query"]
  | "run_final_sql_query" => ["reasoning", "sql_query"]
  | _ => []

/-- Binding `list_tables` with a required parameter absent raises. -/
theorem bindReasoning_missing (fn : String) (args : List (String × Value))
    (hm : ∃ p ∈ (["reasoning"] : List String), args.lookup p = none) :
    bindReasoning fn args = .error (missingArgText fn (missingOf ["reasoning"] args)) := by
  obtain ⟨p, hp, hnone⟩ := hm
  simp at hp
  subst hp
  simp [bindReasoning, hnone]

/-- Binding `describe_table` with a required parameter absent raises. -/
theorem bindTableArgs_missing (fn : String) (args : List (String × Value))
    (hm : ∃ p ∈ (["reasoning", "table_name"] : List String), args.lookup p = none) :
    bindTableArgs fn args = .error (missingArgText fn (missingOf ["reasoning", "table_name"] args)) := by
  obtain ⟨p, hp, hnone⟩ := hm
  simp at hp
  rcases hp with rfl | rfl
  · simp [bindTableArgs, hnone]
  · cases hre : args.lookup "reasoning" <;> simp [bindTableArgs, hnone, hre]

/-- Binding `sample_table` with a required parameter absent raises. -/
theorem bindSampleArgs_missing (fn : String) (args : List (String × Value))
    (hm : ∃ p ∈ (["reasoning", "table_name", "row_count"] : List String), args.lookup p = none) :
    bindSampleArgs fn args
      = .error (missingArgText fn (missingOf ["reasoning", "table_name", "row_count"] args)) := by
  obtain ⟨p, hp, hnone⟩ := hm
  simp at hp
  rcases hp with rfl | rfl | rfl
  · simp [bindSampleArgs, hnone]
  · cases hre : args.lookup "reasoning" <;> simp [bindSampleArgs, hnone, hre]
  · cases hre : args.lookup "reasoning" <;> cases hta : args.lookup "table_name" <;>
      simp [bindSampleArgs, hnone, hre, hta]

/-- Binding a query tool with a required parameter absent raises. -/
theorem bindQueryArgs_missing (fn : String) (args : List (String × Value))
    (hm : ∃ p ∈ (["reasoning", "sql_query"] : List String), args.lookup p = none) :
    bindQueryArgs fn args = .error (missingArgText fn (missingOf ["reasoning", "sql_query"] args)) := by
  obtain ⟨p, hp, hnone⟩ := hm
  simp at hp
  rcases hp with rfl | rfl
  · simp [bindQueryArgs, hnone]
  · cases hre : args.lookup "reasoning" <;> simp [bindQueryArgs, hnone, hre]

/-- C1: for every compute-round budget B ≥ 1, a run performs at most B
rounds (iterations of the agent loop) and executes at most one successful
`run_final_sql_query` invocation. -/
theorem budget_and_single_final (env : Db) (dbPath : String) (backend : Backend)
    (B : Nat) (st0 : LoopState) (hB : 1 ≤ B) :
    (runFrom env dbPath backend B 0 st0).rounds ≤ B
  ∧ (runFrom env dbPath backend B 0 st0).finals ≤ 1 :=
  runFrom_counts env dbPath backend B 0 st0

/-- Witness for C1: a budget-1 run with a free-text backend. -/
theorem budget_and_single_final_witness :
    1 ≤ 1
  ∧ ((runFrom envOkEmpty "db" backendFree 1 0 ⟨[], none⟩).rounds ≤ 1
  ∧ (runFrom envOkEmpty "db" backendFree 1 0 ⟨[], none⟩).finals ≤ 1) :=
  ⟨Nat.le_refl 1, budget_and_single_final envOkEmpty "db" backendFree 1 ⟨[], none⟩ (Nat.le_refl 1)⟩

/-- C5: history is append-only and order-preserving at every level: the
incoming message list is a prefix of the outgoing one for a single
dispatch, for a round's dispatch sequence, and for the whole loop — so a
turn appended at an earlier round precedes every turn appended later in
the final history, and no step rewrites, removes, or reorders a
previously appended turn. -/
theorem history_append_only :
    (∀ (env : Db) (dbPath : String) (st : LoopState) (fc : FuncCall),
        st.messages <+: (processCall env dbPath st fc).state.messages)
  ∧ (∀ (env : Db) (dbPath : String) (st : LoopState) (calls : List FuncCall),
        st.messages <+: (processCalls env dbPath st calls).state.messages)
  ∧ (∀ (env : Db) (dbPath : String) (backend : Backend) (fuel i : Nat) (st : LoopState),
        st.messages <+: (runFrom env dbPath backend fuel i st).outcome.state.messages) :=
  ⟨processCall_state_extends,
   fun env dbPath st calls => processCalls_state_extends env dbPath calls st,
   fun env dbPath backend fuel i st => runFrom_state_extends env dbPath backend fuel i st⟩

/-- C9: `describe_table` is idempotent against an unchanged database: its
output depends only on the database environment, the database path, and
the table name, so two calls with the same `table_name` and any reasoning
strings return identical output text. -/
theorem describe_table_idempotent (env : Db) (dbPath r1 r2 t : String) :
    describe_table env dbPath r1 t = describe_table env dbPath r2 t := rfl

/-- C2: if a `run_final_sql_query` invocation whose keyword binding
succeeds is reached in a round, `main` returns at that point: the outcome
is `terminated` with that call's result text as the run's output and with
the history exactly as it stood before the final call — the final result
is never appended, the remaining invocations of the round are never
dispatched, and no later round executes, so no further tool dispatch is
recorded in history afterward. -/
theorem final_query_terminates_immediately (env : Db) (dbPath : String) (backend : Backend)
    (fuel i : Nat) (st st1 : LoopState) (pre post : List FuncCall) (fc : FuncCall)
    (txt r q : String)
    (hname : fc.name = "run_final_sql_query")
    (hbind : bindQueryArgs "run_final_sql_query" fc.args = .ok (r, q))
    (hresp : backend i st.messages = .ok ⟨pre ++ fc :: post, txt⟩)
    (hpre : processCalls env dbPath st pre = .next st1) :
    (runFrom env dbPath backend (fuel + 1) i st).outcome
      = .terminated (run_final_sql_query env dbPath r q) st1 := by
  have hcall : processCall env dbPath st1 fc = .finished (run_final_sql_query env dbPath r q) st1 := by
    obtain ⟨nm, args⟩ := fc
    simp only at hname
    subst hname
    simp only at hbind
    simp [processCall, hbind]
  have hcalls : processCalls env dbPath st (pre ++ fc :: post)
      = .finished (run_final_sql_query env dbPath r q) st1 := by
    rw [processCalls_append env dbPath pre (fc :: post) st, hpre]
    simp [processCalls, hcall]
  have hne : ((⟨pre ++ fc :: post, txt⟩ : GenResponse)).function_calls.isEmpty = false := by
    cases pre <;> simp
  rw [runFrom]
  simp [hresp, processRound, hne, hcalls]

/-- Witness for C2: a backend whose first round immediately requests the
final query terminates a budget-1 run with that query's output. -/
theorem final_query_terminates_immediately_witness :
    (fcFinal.name = "run_final_sql_query"
      ∧ bindQueryArgs "run_final_sql_query" fcFinal.args = .ok ("done", "SELECT 1;")
      ∧ backendFinal 0 (⟨[], none⟩ : LoopState).messages = .ok ⟨[] ++ fcFinal :: [], ""⟩
      ∧ processCalls envOkEmpty "db" ⟨[], none⟩ [] = .next ⟨[], none⟩)
  ∧ (runFrom envOkEmpty "db" backendFinal 1 0 ⟨[], none⟩).outcome
      = .terminated (run_final_sql_query envOkEmpty "db" "done" "SELECT 1;") ⟨[], none⟩ :=
  ⟨⟨rfl, rfl, rfl, rfl⟩,
    final_query_terminates_immediately envOkEmpty "db" backendFinal 0 0 ⟨[], none⟩ ⟨[], none⟩
      [] [] fcFinal "" "done" "SELECT 1;" rfl rfl rfl rfl⟩

/-- C10: any `run_final_sql_query` invocation whose keyword binding
succeeds takes the termination branch for every database environment:
`run_final_sql_query` catches every exception internally and returns a
string (the stdout, or the exception text when the process spawn raises),
so the orchestrator terminates the run regardless of database-level
success. -/
theorem final_query_always_terminates (env : Db) (dbPath : String) (st : LoopState)
    (fc : FuncCall) (r q : String)
    (hname : fc.name = "run_final_sql_query")
    (hbind : bindQueryArgs "run_final_sql_query" fc.args = .ok (r, q)) :
    processCall env dbPath st fc = .finished (run_final_sql_query env dbPath r q) st
  ∧ (∀ e, env (duckdbCmd dbPath q) = .error e → run_final_sql_query env dbPath r q = e) := by
  obtain ⟨nm, args⟩ := fc
  simp only at hname
  subst hname
  simp only at hbind
  constructor
  · simp [processCall, hbind]
  · intro e he
    simp [run_final_sql_query, he]

/-- Witness for C10: under a database environment whose process spawn
always raises, a well-formed final invocation still terminates the run,
with the exception text as output. -/
theorem final_query_always_terminates_witness :
    (fcFinal.name = "run_final_sql_query"
      ∧ bindQueryArgs "run_final_sql_query" fcFinal.args = .ok ("done", "SELECT 1;"))
  ∧ processCall envRaise "db" ⟨[], none⟩ fcFinal
      = .finished (run_final_sql_query envRaise "db" "done" "SELECT 1;") ⟨[], none⟩
  ∧ (∀ e, envRaise (duckdbCmd "db" "SELECT 1;") = .error e →
        run_final_sql_query envRaise "db" "done" "SELECT 1;" = e) :=
  ⟨⟨rfl, rfl⟩,
   (final_query_always_terminates envRaise "db" ⟨[], none⟩ fcFinal "done" "SELECT 1;" rfl rfl).1,
   (final_query_always_terminates envRaise "db" ⟨[], none⟩ fcFinal "done" "SELECT 1;" rfl rfl).2⟩

/-- C7: invoking any registered tool with a required argument missing
makes the keyword binding raise a TypeError, which the dispatch's handler
absorbs: exactly one role-"model" error turn whose text contains the
failed tool's name is appended, the rest of the state is unchanged, and
the dispatch returns normally so the loop continues. -/
theorem missing_argument_feedback (env : Db) (dbPath : String) (st : LoopState) (fc : FuncCall)
    (h5 : fc.name ∈ registeredTools)
    (hm : ∃ p ∈ requiredParams fc.name, fc.args.lookup p = none) :
    ∃ msg, processCall env dbPath st fc = .next ⟨st.messages ++ [modelTurn msg], st.lastResult⟩
      ∧ ∃ a b, msg = a ++ fc.name ++ b := by
  obtain ⟨nm, args⟩ := fc
  simp only [registeredTools, List.mem_cons, List.not_mem_nil, or_false] at h5
  simp only at hm
  rcases h5 with rfl | rfl | rfl | rfl | rfl
  · rw [show requiredParams "list_tables" = ["reasoning"] from rfl] at hm
    have he := bindReasoning_missing "list_tables" args hm
    exact ⟨errorMsg "list_tables" (pyStrArgs args) (missingArgText "list_tables" (missingOf ["reasoning"] args)),
      by simp [processCall, he], errorMsg_contains_name _ _ _⟩
  · rw [show requiredParams "describe_table" = ["reasoning", "table_name"] from rfl] at hm
    have he := bindTableArgs_missing "describe_table" args hm
    exact ⟨errorMsg "describe_table" (pyStrArgs args) (missingArgText "describe_table" (missingOf ["reasoning", "table_name"] args)),
      by simp [processCall, he], errorMsg_contains_name _ _ _⟩
  · rw [show requiredParams "sample_table" = ["reasoning", "table_name", "row_count"] from rfl] at hm
    have he := bindSampleArgs_missing "sample_table" args hm
    exact ⟨errorMsg "sample_table" (pyStrArgs args) (missingArgText "sample_table" (missingOf ["reasoning", "table_name", "row_count"] args)),
      by simp [processCall, he], errorMsg_contains_name _ _ _⟩
  · rw [show requiredParams "run_test_sql_query" = ["reasoning", "sql_query"] from rfl] at hm
    have he := bindQueryArgs_missing "run_test_sql_query" args hm
    exact ⟨errorMsg "run_test_sql_query" (pyStrArgs args) (missingArgText "run_test_sql_query" (missingOf ["reasoning", "sql_query"] args)),
      by simp [processCall, he], errorMsg_contains_name _ _ _⟩
  · rw [show requiredParams "run_final_sql_query" = ["reasoning", "sql_query"] from rfl] at hm
    have he := bindQueryArgs_missing "run_final_sql_query" args hm
    exact ⟨errorMsg "run_final_sql_query" (pyStrArgs args) (missingArgText "run_final_sql_query" (missingOf ["reasoning", "sql_query"] args)),
      by simp [processCall, he], errorMsg_contains_name _ _ _⟩

/-- Witness for C7: `describe_table` invoked without `table_name`. -/
theorem missing_argument_feedback_witness :
    (("describe_table" : String) ∈ registeredTools
      ∧ ∃ p ∈ requiredParams "describe_table",
          ([("reasoning", Value.str "why")] : List (String × Value)).lookup p = none)
  ∧ ∃ msg, processCall envOkEmpty "db" ⟨[], none⟩ ⟨"describe_table", [("reasoning", Value.str "why")]⟩
        = .next ⟨[] ++ [modelTurn msg], none⟩ ∧ ∃ a b, msg = a ++ "describe_table" ++ b :=
  ⟨⟨by decide, ⟨"table_name", by decide, rfl⟩⟩,
    missing_argument_feedback envOkEmpty "db" ⟨[], none⟩
      ⟨"describe_table", [("reasoning", Value.str "why")]⟩ (by decide)
      ⟨"table_name", by decide, rfl⟩⟩

/-- C8: when the backend returns zero tool invocations, the round appends
exactly one role-"model" turn holding the free-text reply, does not
terminate the run, and the loop proceeds to the next round with one unit
of budget consumed. -/
theorem free_text_round_continues (env : Db) (dbPath : String) (backend : Backend)
    (fuel i : Nat) (st : LoopState) (resp : GenResponse)
    (hcalls : resp.function_calls = [])
    (hresp : backend i st.messages = .ok resp) :
    processRound env dbPath st resp = .next ⟨st.messages ++ [modelTurn resp.text], st.lastResult⟩
  ∧ runFrom env dbPath backend (fuel + 1) i st
      = (let r := runFrom env dbPath backend fuel (i + 1)
                    ⟨st.messages ++ [modelTurn resp.text], st.lastResult⟩
         ⟨r.outcome, r.rounds + 1, r.finals⟩) := by
  have h1 : processRound env dbPath st resp
      = .next ⟨st.messages ++ [modelTurn resp.text], st.lastResult⟩ := by
    simp [processRound, hcalls]
  refine ⟨h1, ?_⟩
  rw [runFrom]
  simp [hresp, h1]

/-- Witness for C8: a free-text response in round 0 of a budget-1 run. -/
theorem free_text_round_continues_witness :
    ((⟨[], "hi"⟩ : GenResponse).function_calls = []
      ∧ backendFree 0 (⟨[], none⟩ : LoopState).messages = .ok ⟨[], "hi"⟩)
  ∧ (processRound envOkEmpty "db" ⟨[], none⟩ ⟨[], "hi"⟩
        = .next ⟨(⟨[], none⟩ : LoopState).messages ++ [modelTurn "hi"], (⟨[], none⟩ : LoopState).lastResult⟩
  ∧ runFrom envOkEmpty "db" backendFree 1 0 ⟨[], none⟩
      = (let r := runFrom envOkEmpty "db" backendFree 0 1
                    ⟨(⟨[], none⟩ : LoopState).messages ++ [modelTurn "hi"], (⟨[], none⟩ : LoopState).lastResult⟩
         ⟨r.outcome, r.rounds + 1, r.finals⟩)) :=
  ⟨⟨rfl, rfl⟩, free_text_round_continues envOkEmpty "db" backendFree 0 0 ⟨[], none⟩ ⟨[], "hi"⟩ rfl rfl⟩

/-- C3 counterexample: with a database process that exits with status 1,
empty stdout, and a nonempty stderr, `describe_table` and
`run_test_sql_query` return the captured stdout `""`: no error value of
any kind is produced and the captured standard-error text is discarded,
so the caller cannot receive the error by inspecting the result. -/
theorem executor_error_counterexample :
    envFailExit (duckdbCmd "db" "DESCRIBE t1;")
        = .ok ⟨1, "", "Catalog Error: table t1 does not exist"⟩
  ∧ describe_table envFailExit "db" "why" "t1" = ""
  ∧ run_test_sql_query envFailExit "db" "why" "SELECT * FROM t1;" = "" :=
  ⟨rfl, rfl, rfl⟩

/-- C3 amended: the executor calls never raise, but no `ExecutionError`
value exists: on any completed process — nonzero exit included — the
tools return the captured stdout and discard stderr entirely; only when
the process spawn itself raises do `run_test_sql_query` and
`run_final_sql_query` return the exception text, while `describe_table`
returns the empty string. -/
theorem executor_failure_behavior (env : Db) (dbPath r t q : String) :
    (∀ res, env (duckdbCmd dbPath ("DESCRIBE " ++ t ++ ";")) = .ok res →
        describe_table env dbPath r t = res.stdout)
  ∧ (∀ e, env (duckdbCmd dbPath ("DESCRIBE " ++ t ++ ";")) = .error e →
        describe_table env dbPath r t = "")
  ∧ (∀ res, env (duckdbCmd dbPath q) = .ok res →
        run_test_sql_query env dbPath r q = res.stdout)
  ∧ (∀ e, env (duckdbCmd dbPath q) = .error e →
        run_test_sql_query env dbPath r q = e)
  ∧ (∀ e, env (duckdbCmd dbPath q) = .error e →
        run_final_sql_query env dbPath r q = e) := by
  refine ⟨?_, ?_, ?_, ?_, ?_⟩ <;> intro x h <;>
    simp [describe_table, run_test_sql_query, run_final_sql_query, h]

/-- Witness for the amended C3: a nonzero-exit process result and a
raising spawn, each evaluated at a concrete input. -/
theorem executor_failure_behavior_witness :
    (envFailExit (duckdbCmd "db" "DESCRIBE t1;")
        = .ok ⟨1, "", "Catalog Error: table t1 does not exist"⟩
      ∧ describe_table envFailExit "db" "why" "t1"
          = (⟨1, "", "Catalog Error: table t1 does not exist"⟩ : ProcResult).stdout)
  ∧ (envRaise (duckdbCmd "db" "SELECT 1;") = .error "FileNotFoundError: duckdb not found"
      ∧ run_test_sql_query envRaise "db" "why" "SELECT 1;" = "FileNotFoundError: duckdb not found") :=
  ⟨⟨rfl, (executor_failure_behavior envFailExit "db" "why" "t1" "q").1 _ rfl⟩,
   ⟨rfl, (executor_failure_behavior envRaise "db" "why" "t1" "SELECT 1;").2.2.2.1 _ rfl⟩⟩

/-- C4 counterexample: dispatching the unregistered name "made_up_tool"
after an earlier call left the `result` local bound to "stale" appends a
role-"function" history entry for the unknown name carrying the stale
result: a tool result IS recorded for the unknown name, and no
UnknownTool error value exists anywhere in the dispatch. -/
theorem unknown_tool_counterexample :
    processCall envOkEmpty "db" ⟨[], some "stale"⟩ ⟨"made_up_tool", []⟩
      = .next ⟨[functionTurn "made_up_tool" "stale"], some "stale"⟩ := rfl

/-- C4 amended: an unregistered tool name is never validated; the
dispatch falls through to the history append.  If some earlier invocation
assigned the `result` local, a role-"function" turn for the unknown name
carrying that stale result is appended; otherwise reading `result` raises
a NameError, which the handler converts into a role-"model" error turn
naming the unknown tool. -/
theorem unknown_tool_fallthrough (env : Db) (dbPath : String) (st : LoopState) (fc : FuncCall)
    (h5 : fc.name ∉ registeredTools) :
    (∀ s, st.lastResult = some s →
        processCall env dbPath st fc = .next ⟨st.messages ++ [functionTurn fc.name s], some s⟩)
  ∧ (st.lastResult = none →
        processCall env dbPath st fc
          = .next ⟨st.messages ++ [modelTurn (errorMsg fc.name (pyStrArgs fc.args) nameErrorText)], none⟩) := by
  simp only [registeredTools, List.mem_cons, List.not_mem_nil, or_false, not_or] at h5
  obtain ⟨h1, h2, h3, h4, h5'⟩ := h5
  constructor
  · intro s hs
    simp [processCall, h1, h2, h3, h4, h5', hs]
  · intro hn
    simp [processCall, h1, h2, h3, h4, h5', hn]

/-- Witness for the amended C4: the never-assigned-`result` branch at a
concrete unknown name. -/
theorem unknown_tool_fallthrough_witness :
    (("made_up_tool" : String) ∉ registeredTools)
  ∧ processCall envOkEmpty "db" ⟨[], none⟩ ⟨"made_up_tool", []⟩
      = .next ⟨[] ++ [modelTurn (errorMsg "made_up_tool" (pyStrArgs []) nameErrorText)], none⟩ :=
  ⟨by decide,
    (unknown_tool_fallthrough envOkEmpty "db" ⟨[], none⟩ ⟨"made_up_tool", []⟩ (by decide)).2 rfl⟩

/-- C6: with a valid credential and a backend that never raises, a run in
which the loop never takes the final-query termination branch ends in the
exhausted state: the maximum-compute-loops warning is printed and the
process exit code is 0, not an error exit. -/
theorem exhausted_exits_normally (env : Db) (dbPath : String) (backend : Backend)
    (B : Nat) (key agentPrompt userRequest : String)
    (hkey : key ≠ "")
    (hb : ∀ (i : Nat) (msgs : List Turn), ∃ resp, backend i msgs = .ok resp)
    (hnt : ∀ out st,
      (runFrom env dbPath backend B 0 (initState agentPrompt userRequest)).outcome
        ≠ .terminated out st) :
    ∃ st, mainRun (some key) env dbPath backend B agentPrompt userRequest = .exhaustedWarn st
      ∧ exitCodeOf (mainRun (some key) env dbPath backend B agentPrompt userRequest) = 0
      ∧ warningPrinted (mainRun (some key) env dbPath backend B agentPrompt userRequest) = true := by
  have hk : (key == "") = false := by simpa using hkey
  cases hout : (runFrom env dbPath backend B 0 (initState agentPrompt userRequest)).outcome with
  | terminated out st => exact absurd hout (hnt out st)
  | backendError e st => exact absurd hout (runFrom_no_backendError env dbPath backend hb B 0 _ e st)
  | exhausted st =>
      refine ⟨st, ?_, ?_, ?_⟩ <;> simp [mainRun, hk, hout, exitCodeOf, warningPrinted]

/-- Witness for C6: a budget-1 run with a free-text backend never reaches
a final query, warns, and exits 0. -/
theorem exhausted_exits_normally_witness :
    (("k" : String) ≠ ""
      ∧ (∀ (i : Nat) (msgs : List Turn), ∃ resp, backendFree i msgs = .ok resp)
      ∧ (∀ out st, (runFrom envOkEmpty "db" backendFree 1 0 (initState "P" "R")).outcome
            ≠ .terminated out st))
  ∧ ∃ st, mainRun (some "k") envOkEmpty "db" backendFree 1 "P" "R" = .exhaustedWarn st
      ∧ exitCodeOf (mainRun (some "k") envOkEmpty "db" backendFree 1 "P" "R") = 0
      ∧ warningPrinted (mainRun (some "k") envOkEmpty "db" backendFree 1 "P" "R") = true := by
  have hb : ∀ (i : Nat) (msgs : List Turn), ∃ resp, backendFree i msgs = .ok resp :=
    fun _ _ => ⟨⟨[], "hi"⟩, rfl⟩
  have hout : (runFrom envOkEmpty "db" backendFree 1 0 (initState "P" "R")).outcome
      = .exhausted ⟨(initState "P" "R").messages ++ [modelTurn "hi"], none⟩ := by
    rw [runFrom]
    simp [backendFree, processRound, runFrom, initState]
  have hnt : ∀ out st, (runFrom envOkEmpty "db" backendFree 1 0 (initState "P" "R")).outcome
      ≠ .terminated out st := by
    intro out st h
    rw [hout] at h
    exact RunOutcome.noConfusion h
  exact ⟨⟨by decide, hb, hnt⟩,
    exhausted_exits_normally envOkEmpty "db" backendFree 1 "k" "P" "R" (by decide) hb hnt⟩
